import Mathlib

/-!
Verification of the fnrun-runner assembly (`main.go`).

The program wires an event source to a bounded invoker pool and an optional
event sink.  We shallowly embed the Go code:

* Go `error` values become `Option Err` (with `none` for `nil`); fallible
  setup functions returning `(T, error)` with the convention that exactly one
  of the pair is meaningful become `Except Err T`.
* `*fnrun.Result` (a nil-able pointer) becomes `Option Res`.
* `context.Context` becomes an inductive `Ctx` mirroring the parts of the
  context package that matter here: `context.Background()` plus derived
  deadline/cancel contexts (the program itself only ever constructs
  `Ctx.background`; the richer type lets us state that the root context has
  no deadline and is not cancelled).
* The external collaborators that are out of scope (the plugin loader,
  `executil.ParseCmd`, `fnrun.NewInvokerPool`, `os.Environ`) are abstracted
  into a `World` record of functions, quantified over in the theorems.
* Environment variables are a record of strings; Go's `os.Getenv` returns
  `""` for an unset variable, so an absent variable and an empty one are the
  same value in this model, exactly as in the program.
* Go `int` / `time.Duration` are 64-bit; we use `Int` with an explicit
  wrap at 2^64 where an overflow could occur (the duration multiplication).
-/

-- ---------------------------------------------------------------------------
-- Definitions: the shallow embedding of main.go


/-- An opaque invocation input (`*fnrun.Input`). Its structure is irrelevant
to this layer. -/
abbrev Input := String

/-- An opaque invocation result (`fnrun.Result`); a `*fnrun.Result` pointer is
`Option Res`. -/
abbrev Res := String

/-- A non-nil Go `error`; a possibly-nil `error` is `Option Err`. -/
abbrev Err := String

/-- A Go `context.Context`, as used by this program: the root
`context.Background()`, or a context derived with a deadline or with
cancellation. The program only ever builds `background`. -/
inductive Ctx where
  | background
  | withDeadline (parent : Ctx) (deadlineMillis : Nat)
  | withCancel (parent : Ctx) (cancelled : Bool)
  deriving DecidableEq

/-- The effective deadline a context carries (the tightest in its chain). -/
def Ctx.deadline : Ctx → Option Nat
  | .background => none
  | .withDeadline p d =>
    match p.deadline with
    | none => some d
    | some d0 => some (min d0 d)
  | .withCancel p _ => p.deadline

/-- Whether a context (or any ancestor) has been cancelled. -/
def Ctx.isCancelled : Ctx → Bool
  | .background => false
  | .withDeadline p _ => p.isCancelled
  | .withCancel p c => c || p.isCancelled

/-- `fnrun.Invoker`: `Invoke(ctx, *Input) (*Result, error)`. -/
abbrev Invoker := Ctx → Input → Option Res × Option Err

/-- Type alias from main.go:
`type eventSource func(ctx context.Context, invoker fnrun.Invoker) error`. -/
abbrev eventSource := Ctx → Invoker → Option Err

/-- Type alias from main.go:
`type eventSink func(ctx context.Context, result *fnrun.Result) error`. -/
abbrev eventSink := Ctx → Option Res → Option Err

/-- The `sinkInvoker` struct: an invoker plus a nil-able sink function. -/
structure sinkInvoker where
  invoker : Invoker
  sink : Option eventSink

/-- `sinkInvoker.Invoke` from main.go lines 34-50, translated clause by
clause: call the inner invoker; on a non-nil error return `(result, err)`
at once; with no sink return `(result, err)` (where `err` is nil); otherwise
run the sink and return its error, if any, alongside the result. -/
def sinkInvoker.Invoke (si : sinkInvoker) (ctx : Ctx) (input : Input) :
    Option Res × Option Err :=
  let (result, err) := si.invoker ctx input
  match err with
  | some e => (result, some e)
  | none =>
    match si.sink with
    | none => (result, none)
    | some sink =>
      match sink ctx result with
      | some newErr => (result, some newErr)
      | none => (result, none)

/-- `sinkInvoker.Invoke` instrumented with call traces: the same control flow,
additionally returning the list of `(ctx, input)` calls made to the inner
invoker and the list of `(ctx, result)` calls made to the sink, in order. -/
def sinkInvoker.InvokeTr (si : sinkInvoker) (ctx : Ctx) (input : Input) :
    (Option Res × Option Err) × List (Ctx × Input) × List (Ctx × Option Res) :=
  let (result, err) := si.invoker ctx input
  match err with
  | some e => ((result, some e), [(ctx, input)], [])
  | none =>
    match si.sink with
    | none => ((result, none), [(ctx, input)], [])
    | some sink =>
      match sink ctx result with
      | some newErr => ((result, some newErr), [(ctx, input)], [(ctx, result)])
      | none => ((result, none), [(ctx, input)], [(ctx, result)])

/-- The environment variables read by main.go.  Go's `os.Getenv` returns the
empty string for an unset variable, so an absent variable and a variable set
to `""` are indistinguishable, exactly as in the program. -/
structure Env where
  SOURCE_PLUGIN_PATH : String
  SOURCE_PLUGIN_SYMBOL : String
  SINK_PLUGIN_PATH : String
  SINK_PLUGIN_SYMBOL : String
  FUNCTION_COMMAND : String
  MAX_FUNCTION_COUNT : String
  MAX_WAIT_MILLIS : String
  MAX_EXEC_MILLIS : String

/-- The value of a looked-up plugin symbol, classified by its Go dynamic
type: a function of the event-source shape, a function of the event-sink
shape, or anything else.  A Go type assertion to one of the two function
types succeeds exactly on the matching constructor (the two shapes are
distinct types, so no value matches both). -/
inductive SymVal where
  | sourceFn (f : eventSource)
  | sinkFn (f : eventSink)
  | otherSym

/-- A loaded plugin: `Lookup(symbolName)` yields a symbol or a non-nil
error. -/
abbrev Plugin := String → Except Err SymVal

/-- Wrap an unbounded integer into the signed 64-bit range, as Go's `int` /
`time.Duration` arithmetic does. -/
def int64wrap (x : Int) : Int := (x + 2 ^ 63) % 2 ^ 64 - 2 ^ 63

/-- `time.Millisecond` in nanoseconds. -/
def Millisecond : Int := 1000000

/-- Numeric value of a list of decimal digits. -/
def digitsVal (ds : List Char) : Nat :=
  ds.foldl (fun n c => n * 10 + (c.toNat - 48)) 0

/-- The digits-and-range part of `strconv.Atoi`: at least one decimal digit
and nothing else, with the signed value within the `int64` range. -/
def atoiCore (sign : Int) (digits : List Char) : Option Int :=
  if digits = [] then none
  else if digits.all Char.isDigit then
    let v : Int := sign * (digitsVal digits : Nat)
    if v < -(2 ^ 63) ∨ 2 ^ 63 - 1 < v then none else some v
  else none

/-- Go's `strconv.Atoi` on a 64-bit platform: an optional single `+`/`-`
sign followed by at least one decimal digit, in the `int64` range;
anything else (including the empty string and out-of-range numerals)
returns a non-nil error, modelled as `none`. -/
def goAtoi (s : String) : Option Int :=
  match s.data with
  | [] => none
  | c :: cs =>
    if c = '-' then atoiCore (-1) cs
    else if c = '+' then atoiCore 1 cs
    else atoiCore 1 (c :: cs)

/-- An `*exec.Cmd` as produced by `executil.ParseCmd`: opaque to this layer
except for its `Env` field, which getInvoker overwrites with `os.Environ()`. -/
structure Cmd where
  line : String
  Env : List String

/-- `fnrun.InvokerPoolConfig` as filled in by getInvoker.  The factory
`fnrun.NewCmdInvokerFactory(cmd)` is external; we record the command it
wraps.  Durations are in nanoseconds (`time.Duration`). -/
structure InvokerPoolConfig where
  MaxInvokerCount : Int
  InvokerFactory : Cmd
  MaxWaitDuration : Int
  MaxRunnableTime : Int

/-- The external collaborators main.go calls but does not define:
`plugin.Open`, `executil.ParseCmd`, `fnrun.NewInvokerPool`, `os.Environ`.
Theorems quantify over this record. -/
structure World where
  openPlugin : String → Except Err Plugin
  parseCmd : String → Except Err Cmd
  newInvokerPool : InvokerPoolConfig → Except Err Invoker
  environ : List String

/-- `getEventSource` from main.go lines 55-82: require SOURCE_PLUGIN_PATH,
open the plugin, require SOURCE_PLUGIN_SYMBOL, look the symbol up, and
type-assert it to the event-source function shape. -/
def getEventSource (env : Env) (w : World) : Except Err eventSource :=
  let path := env.SOURCE_PLUGIN_PATH
  if path = "" then
    .error "SOURCE_PLUGIN_PATH is a required environment variable"
  else
    match w.openPlugin path with
    | .error e => .error e
    | .ok p =>
      let symbolName := env.SOURCE_PLUGIN_SYMBOL
      if symbolName = "" then
        .error "SOURCE_PLUGIN_SYMBOL is a required environment variable"
      else
        match p symbolName with
        | .error e => .error e
        | .ok symSource =>
          match symSource with
          | .sourceFn source => .ok source
          | _ =>
            .error ("Symbol " ++ symbolName ++ " could not be found in " ++ path)

/-- `getEventSink` from main.go lines 84-111: an empty SINK_PLUGIN_PATH
means no sink and no error; otherwise open the plugin, require
SINK_PLUGIN_SYMBOL, look the symbol up, and type-assert it to the
event-sink function shape. -/
def getEventSink (env : Env) (w : World) : Except Err (Option eventSink) :=
  let path := env.SINK_PLUGIN_PATH
  if path = "" then .ok none
  else
    match w.openPlugin path with
    | .error e => .error e
    | .ok p =>
      let symbolName := env.SINK_PLUGIN_SYMBOL
      if symbolName = "" then
        .error "SINK_PLUGIN_SYMBOL is required when a SINK_PLUGIN_PATH is provided"
      else
        match p symbolName with
        | .error e => .error e
        | .ok symSink =>
          match symSink with
          | .sinkFn sink => .ok (some sink)
          | _ =>
            .error ("Symbol " ++ symbolName ++ " could not be found in " ++ path)

/-- The pool configuration built by getInvoker (main.go lines 120-152):
each numeric policy starts at its default (8, 500 ms, 30000 ms) and is
overwritten only when its environment variable is non-empty and
`strconv.Atoi` parses it. -/
def buildPoolConfig (env : Env) (cmd : Cmd) : InvokerPoolConfig :=
  let maxFuncCount : Int :=
    if env.MAX_FUNCTION_COUNT = "" then 8
    else
      match goAtoi env.MAX_FUNCTION_COUNT with
      | some i => i
      | none => 8
  let maxWaitMillis : Int :=
    if env.MAX_WAIT_MILLIS = "" then 500
    else
      match goAtoi env.MAX_WAIT_MILLIS with
      | some i => i
      | none => 500
  let maxExecMillis : Int :=
    if env.MAX_EXEC_MILLIS = "" then 30000
    else
      match goAtoi env.MAX_EXEC_MILLIS with
      | some i => i
      | none => 30000
  { MaxInvokerCount := maxFuncCount
    InvokerFactory := cmd
    MaxWaitDuration := int64wrap (maxWaitMillis * Millisecond)
    MaxRunnableTime := int64wrap (maxExecMillis * Millisecond) }

/-- `getInvoker` from main.go lines 113-159: parse FUNCTION_COMMAND, attach
the process environment, build the pool configuration and construct the
invoker pool. -/
def getInvoker (env : Env) (w : World) : Except Err Invoker :=
  match w.parseCmd env.FUNCTION_COMMAND with
  | .error e => .error e
  | .ok cmd0 =>
    let cmd : Cmd := { cmd0 with Env := w.environ }
    match w.newInvokerPool (buildPoolConfig env cmd) with
    | .error e => .error e
    | .ok pool => .ok pool

/-- `run` from main.go lines 167-184, instrumented with the list of contexts
at which the event source is invoked: build the invoker pool, resolve the
event source, resolve the event sink — returning the first error — then call
the event source once, on `context.Background()`, with the sinkInvoker. -/
def runTr (env : Env) (w : World) : Option Err × List Ctx :=
  match getInvoker env w with
  | .error e => (some e, [])
  | .ok invoker =>
    match getEventSource env w with
    | .error e => (some e, [])
    | .ok source =>
      match getEventSink env w with
      | .error e => (some e, [])
      | .ok sink =>
        (source Ctx.background (sinkInvoker.Invoke ⟨invoker, sink⟩),
         [Ctx.background])

/-- `run` from main.go lines 167-184: the result component of `runTr`. -/
def run (env : Env) (w : World) : Option Err := (runTr env w).1

/-- A concrete parsed command, for witnesses. -/
def cmd0 : Cmd := { line := "echo", Env := [] }

/-- A concrete environment whose MAX_FUNCTION_COUNT override is the integer
`0` — parseable, but not positive. -/
def envZero : Env :=
  { SOURCE_PLUGIN_PATH := "./src.so", SOURCE_PLUGIN_SYMBOL := "Source"
    SINK_PLUGIN_PATH := "", SINK_PLUGIN_SYMBOL := ""
    FUNCTION_COMMAND := "echo", MAX_FUNCTION_COUNT := "0"
    MAX_WAIT_MILLIS := "", MAX_EXEC_MILLIS := "" }

/-- A concrete environment with unparseable numeric overrides. -/
def envBad : Env :=
  { SOURCE_PLUGIN_PATH := "./src.so", SOURCE_PLUGIN_SYMBOL := "Source"
    SINK_PLUGIN_PATH := "", SINK_PLUGIN_SYMBOL := ""
    FUNCTION_COMMAND := "echo", MAX_FUNCTION_COUNT := "abc"
    MAX_WAIT_MILLIS := "many", MAX_EXEC_MILLIS := "12x" }

/-- A concrete world whose external collaborators all succeed trivially. -/
def wTriv : World :=
  { openPlugin := fun _ => .error "no such file"
    parseCmd := fun s => .ok { line := s, Env := [] }
    newInvokerPool := fun _ => .ok fun _ _ => (some "ok", none)
    environ := [] }

/-- A concrete invoker that always succeeds. -/
def inv0 : Invoker := fun _ _ => (some "ok", none)

/-- A concrete event source: one invocation of the given invoker. -/
def src0 : eventSource := fun ctx invoke => (invoke ctx "evt").2

/-- A concrete event sink that always succeeds. -/
def snk0 : eventSink := fun _ _ => none

/-- A concrete plugin exposing a source symbol, a sink symbol and a symbol
of some other shape. -/
def pluginBoth : Plugin := fun name =>
  if name = "Source" then .ok (.sourceFn src0)
  else if name = "Sink" then .ok (.sinkFn snk0)
  else if name = "Other" then .ok .otherSym
  else .error "symbol not found"

/-- A world where every collaborator succeeds. -/
def wOk : World :=
  { openPlugin := fun _ => .ok pluginBoth
    parseCmd := fun s => .ok { line := s, Env := [] }
    newInvokerPool := fun _ => .ok inv0
    environ := [] }

/-- A world whose command parser fails. -/
def wBadCmd : World :=
  { openPlugin := fun _ => .ok pluginBoth
    parseCmd := fun _ => .error "invalid command"
    newInvokerPool := fun _ => .ok inv0
    environ := [] }

/-- A world whose plugin loader fails. -/
def wNoFile : World :=
  { openPlugin := fun _ => .error "no such file"
    parseCmd := fun s => .ok { line := s, Env := [] }
    newInvokerPool := fun _ => .ok inv0
    environ := [] }

/-- A fully-populated environment. -/
def envOk : Env :=
  { SOURCE_PLUGIN_PATH := "./src.so", SOURCE_PLUGIN_SYMBOL := "Source"
    SINK_PLUGIN_PATH := "./sink.so", SINK_PLUGIN_SYMBOL := "Sink"
    FUNCTION_COMMAND := "echo hi", MAX_FUNCTION_COUNT := ""
    MAX_WAIT_MILLIS := "", MAX_EXEC_MILLIS := "" }

/-- envOk with the sink symbol name left unset. -/
def envSinkNoSym : Env := { envOk with SINK_PLUGIN_SYMBOL := "" }

/-- envOk with the source symbol name left unset. -/
def envNoSym : Env := { envOk with SOURCE_PLUGIN_SYMBOL := "" }

/-- envOk pointed at a symbol of the wrong shape for a source. -/
def envWrongSrc : Env := { envOk with SOURCE_PLUGIN_SYMBOL := "Sink" }

/-- envOk pointed at a symbol of the wrong shape for a sink. -/
def envWrongSink : Env := { envOk with SINK_PLUGIN_SYMBOL := "Source" }

/-- An environment with every variable unset. -/
def envEmpty : Env :=
  { SOURCE_PLUGIN_PATH := "", SOURCE_PLUGIN_SYMBOL := ""
    SINK_PLUGIN_PATH := "", SINK_PLUGIN_SYMBOL := ""
    FUNCTION_COMMAND := "", MAX_FUNCTION_COUNT := ""
    MAX_WAIT_MILLIS := "", MAX_EXEC_MILLIS := "" }

-- ---------------------------------------------------------------------------
-- Theorems

/-- The instrumented version computes the same `(result, error)` pair. -/
theorem sinkInvoker.InvokeTr_fst (si : sinkInvoker) (ctx : Ctx) (input : Input) :
    (si.InvokeTr ctx input).1 = si.Invoke ctx input := by
  unfold sinkInvoker.Invoke sinkInvoker.InvokeTr
  rcases si.invoker ctx input with ⟨result, err⟩
  cases err <;> rcases hs : si.sink with _ | sink <;> simp
  cases h : sink ctx result <;> simp

/-- C1: if the inner invoker returns `(result, nil)`, a sink is configured,
and the sink returns a non-nil error, then `sinkInvoker.Invoke` returns the
original result paired with the sink's error. -/
theorem C1_sink_error_replaces_nil
    (inv : Invoker) (s : eventSink) (ctx : Ctx) (input : Input)
    (res : Option Res) (e : Err)
    (hinv : inv ctx input = (res, none))
    (hsink : s ctx res = some e) :
    sinkInvoker.Invoke ⟨inv, some s⟩ ctx input = (res, some e) := by
  simp [sinkInvoker.Invoke, hinv, hsink]

/-- Witness for C1 at concrete inputs. -/
theorem C1_sink_error_replaces_nil_witness :
    sinkInvoker.Invoke
      ⟨fun _ _ => (some "ok", none), some fun _ _ => some "disk full"⟩
      Ctx.background "evt" = (some "ok", some "disk full") :=
  C1_sink_error_replaces_nil (fun _ _ => (some "ok", none))
    (fun _ _ => some "disk full") Ctx.background "evt" (some "ok") "disk full"
    rfl rfl

/-- C2: if the inner invoker returns a non-nil error, `sinkInvoker.Invoke`
returns that same `(result, error)` pair (even when the result is non-empty)
and the sink is never called: the instrumented trace of sink calls is empty,
for any configured sink. -/
theorem C2_invoker_error_skips_sink
    (inv : Invoker) (sk : Option eventSink) (ctx : Ctx) (input : Input)
    (res : Option Res) (e : Err)
    (hinv : inv ctx input = (res, some e)) :
    sinkInvoker.Invoke ⟨inv, sk⟩ ctx input = (res, some e) ∧
    (sinkInvoker.InvokeTr ⟨inv, sk⟩ ctx input).2.2 = [] := by
  constructor
  · simp [sinkInvoker.Invoke, hinv]
  · simp [sinkInvoker.InvokeTr, hinv]

/-- Witness for C2 at concrete inputs, with a non-empty result alongside the
error and a sink configured. -/
theorem C2_invoker_error_skips_sink_witness :
    sinkInvoker.Invoke
      ⟨fun _ _ => (some "partial", some "boom"), some fun _ _ => some "sunk"⟩
      Ctx.background "evt" = (some "partial", some "boom") ∧
    (sinkInvoker.InvokeTr
      ⟨fun _ _ => (some "partial", some "boom"), some fun _ _ => some "sunk"⟩
      Ctx.background "evt").2.2 = [] :=
  C2_invoker_error_skips_sink (fun _ _ => (some "partial", some "boom"))
    (some fun _ _ => some "sunk") Ctx.background "evt" (some "partial") "boom"
    rfl

/-- C3: if the inner invoker returns `(result, nil)`, then with no sink
configured, or with a sink that returns nil, `sinkInvoker.Invoke` returns
exactly `(result, nil)`. -/
theorem C3_success_passthrough
    (inv : Invoker) (ctx : Ctx) (input : Input) (res : Option Res)
    (hinv : inv ctx input = (res, none)) :
    sinkInvoker.Invoke ⟨inv, none⟩ ctx input = (res, none) ∧
    ∀ s : eventSink, s ctx res = none →
      sinkInvoker.Invoke ⟨inv, some s⟩ ctx input = (res, none) := by
  constructor
  · simp [sinkInvoker.Invoke, hinv]
  · intro s hs
    simp [sinkInvoker.Invoke, hinv, hs]

/-- Witness for C3 at concrete inputs. -/
theorem C3_success_passthrough_witness :
    sinkInvoker.Invoke ⟨fun _ _ => (some "ok", none), none⟩
      Ctx.background "evt" = (some "ok", none) ∧
    sinkInvoker.Invoke
      ⟨fun _ _ => (some "ok", none), some fun _ _ => none⟩
      Ctx.background "evt" = (some "ok", none) :=
  ⟨(C3_success_passthrough (fun _ _ => (some "ok", none))
      Ctx.background "evt" (some "ok") rfl).1,
   (C3_success_passthrough (fun _ _ => (some "ok", none))
      Ctx.background "evt" (some "ok") rfl).2 (fun _ _ => none) rfl⟩

theorem wrap500 : int64wrap (500 * Millisecond) = 500 * Millisecond := by decide

theorem wrap30000 : int64wrap (30000 * Millisecond) = 30000 * Millisecond := by
  decide

theorem bpc_count_default (env : Env) (cmd : Cmd)
    (h : env.MAX_FUNCTION_COUNT = "" ∨ goAtoi env.MAX_FUNCTION_COUNT = none) :
    (buildPoolConfig env cmd).MaxInvokerCount = 8 := by
  unfold buildPoolConfig
  rcases h with h | h
  · simp [h]
  · by_cases he : env.MAX_FUNCTION_COUNT = "" <;> simp [he, h]

theorem bpc_wait_default (env : Env) (cmd : Cmd)
    (h : env.MAX_WAIT_MILLIS = "" ∨ goAtoi env.MAX_WAIT_MILLIS = none) :
    (buildPoolConfig env cmd).MaxWaitDuration = 500 * Millisecond := by
  unfold buildPoolConfig
  rcases h with h | h
  · simp [h, wrap500]
  · by_cases he : env.MAX_WAIT_MILLIS = "" <;> simp [he, h, wrap500]

theorem bpc_exec_default (env : Env) (cmd : Cmd)
    (h : env.MAX_EXEC_MILLIS = "" ∨ goAtoi env.MAX_EXEC_MILLIS = none) :
    (buildPoolConfig env cmd).MaxRunnableTime = 30000 * Millisecond := by
  unfold buildPoolConfig
  rcases h with h | h
  · simp [h, wrap30000]
  · by_cases he : env.MAX_EXEC_MILLIS = "" <;> simp [he, h, wrap30000]

theorem bpc_count_override (env : Env) (cmd : Cmd) (i : Int)
    (hne : env.MAX_FUNCTION_COUNT ≠ "")
    (h : goAtoi env.MAX_FUNCTION_COUNT = some i) :
    (buildPoolConfig env cmd).MaxInvokerCount = i := by
  unfold buildPoolConfig
  simp [hne, h]

theorem bpc_wait_override (env : Env) (cmd : Cmd) (i : Int)
    (hne : env.MAX_WAIT_MILLIS ≠ "")
    (h : goAtoi env.MAX_WAIT_MILLIS = some i) :
    (buildPoolConfig env cmd).MaxWaitDuration = int64wrap (i * Millisecond) := by
  unfold buildPoolConfig
  simp [hne, h]

theorem bpc_exec_override (env : Env) (cmd : Cmd) (i : Int)
    (hne : env.MAX_EXEC_MILLIS ≠ "")
    (h : goAtoi env.MAX_EXEC_MILLIS = some i) :
    (buildPoolConfig env cmd).MaxRunnableTime = int64wrap (i * Millisecond) := by
  unfold buildPoolConfig
  simp [hne, h]

theorem bpc_count_congr (env env' : Env) (cmd : Cmd)
    (h : env'.MAX_FUNCTION_COUNT = env.MAX_FUNCTION_COUNT) :
    (buildPoolConfig env' cmd).MaxInvokerCount
      = (buildPoolConfig env cmd).MaxInvokerCount := by
  unfold buildPoolConfig
  simp [h]

theorem bpc_wait_congr (env env' : Env) (cmd : Cmd)
    (h : env'.MAX_WAIT_MILLIS = env.MAX_WAIT_MILLIS) :
    (buildPoolConfig env' cmd).MaxWaitDuration
      = (buildPoolConfig env cmd).MaxWaitDuration := by
  unfold buildPoolConfig
  simp [h]

theorem bpc_exec_congr (env env' : Env) (cmd : Cmd)
    (h : env'.MAX_EXEC_MILLIS = env.MAX_EXEC_MILLIS) :
    (buildPoolConfig env' cmd).MaxRunnableTime
      = (buildPoolConfig env cmd).MaxRunnableTime := by
  unfold buildPoolConfig
  simp [h]

theorem bpc_count_unset (env : Env) (cmd : Cmd)
    (h : goAtoi env.MAX_FUNCTION_COUNT = none) :
    buildPoolConfig env cmd
      = buildPoolConfig { env with MAX_FUNCTION_COUNT := "" } cmd := by
  unfold buildPoolConfig
  by_cases he : env.MAX_FUNCTION_COUNT = "" <;> simp [he, h]

theorem bpc_wait_unset (env : Env) (cmd : Cmd)
    (h : goAtoi env.MAX_WAIT_MILLIS = none) :
    buildPoolConfig env cmd
      = buildPoolConfig { env with MAX_WAIT_MILLIS := "" } cmd := by
  unfold buildPoolConfig
  by_cases he : env.MAX_WAIT_MILLIS = "" <;> simp [he, h]

theorem bpc_exec_unset (env : Env) (cmd : Cmd)
    (h : goAtoi env.MAX_EXEC_MILLIS = none) :
    buildPoolConfig env cmd
      = buildPoolConfig { env with MAX_EXEC_MILLIS := "" } cmd := by
  unfold buildPoolConfig
  by_cases he : env.MAX_EXEC_MILLIS = "" <;> simp [he, h]

theorem getInvoker_ext (env env' : Env) (w : World)
    (hfc : env.FUNCTION_COMMAND = env'.FUNCTION_COMMAND)
    (hb : ∀ cmd, buildPoolConfig env cmd = buildPoolConfig env' cmd) :
    getInvoker env w = getInvoker env' w := by
  unfold getInvoker
  rw [hfc]
  cases w.parseCmd env'.FUNCTION_COMMAND with
  | error e => rfl
  | ok cmd0 => simp only [hb]

/-- C4 counterexample: the claim says every override that is not a positive
integer is ignored in favor of the default for maxConcurrentInvokers (8).
But `"0"` — an integer that is not positive — parses under `strconv.Atoi`,
so the built pool configuration carries 0, not the default 8. -/
theorem C4_counterexample :
    envZero.MAX_FUNCTION_COUNT = "0" ∧
    goAtoi "0" = some 0 ∧
    ¬ (0 : Int) > 0 ∧
    (buildPoolConfig envZero cmd0).MaxInvokerCount = 0 ∧
    (buildPoolConfig envZero cmd0).MaxInvokerCount ≠ 8 := by
  refine ⟨rfl, by decide, by decide, by decide, by decide⟩

/-- C4 (amended): a numeric/duration pool-config override is ignored — the
field silently falls back to its default — exactly when it is absent or not
parseable as a 64-bit integer.  Any parseable integer override, including a
zero or negative MAX_FUNCTION_COUNT, is carried into the built configuration
as-is: positivity is not validated.  The default for max concurrent invokers,
8, is itself positive. -/
theorem C4_invalid_override_falls_back (env : Env) (cmd : Cmd) :
    ((env.MAX_FUNCTION_COUNT = "" ∨ goAtoi env.MAX_FUNCTION_COUNT = none) →
      (buildPoolConfig env cmd).MaxInvokerCount = 8) ∧
    ((env.MAX_WAIT_MILLIS = "" ∨ goAtoi env.MAX_WAIT_MILLIS = none) →
      (buildPoolConfig env cmd).MaxWaitDuration = 500 * Millisecond) ∧
    ((env.MAX_EXEC_MILLIS = "" ∨ goAtoi env.MAX_EXEC_MILLIS = none) →
      (buildPoolConfig env cmd).MaxRunnableTime = 30000 * Millisecond) ∧
    (∀ i, env.MAX_FUNCTION_COUNT ≠ "" → goAtoi env.MAX_FUNCTION_COUNT = some i →
      (buildPoolConfig env cmd).MaxInvokerCount = i) ∧
    (0 : Int) < 8 :=
  ⟨bpc_count_default env cmd, bpc_wait_default env cmd, bpc_exec_default env cmd,
   fun i hne h => bpc_count_override env cmd i hne h, by decide⟩

/-- Witness for C4 at concrete inputs: an unparseable override falls back to
the default, and the parseable override "0" is carried as-is. -/
theorem C4_invalid_override_falls_back_witness :
    (buildPoolConfig envBad cmd0).MaxInvokerCount = 8 ∧
    (buildPoolConfig envZero cmd0).MaxInvokerCount = 0 :=
  ⟨(C4_invalid_override_falls_back envBad cmd0).1 (Or.inr (by decide)),
   (C4_invalid_override_falls_back envZero cmd0).2.2.2.1 0 (by decide) (by decide)⟩

/-- C5: an absent or unparseable numeric policy value leaves the default in
place (8 invokers, 500 ms queue wait, 30000 ms execution time) without
failing setup — getInvoker behaves exactly as if the variable were unset —
and each of the three fields is determined solely by its own variable and is
overridable by a parseable value. -/
theorem C5_policy_defaults_and_independence (env : Env) (w : World) (cmd : Cmd) :
    ((env.MAX_FUNCTION_COUNT = "" ∨ goAtoi env.MAX_FUNCTION_COUNT = none) →
      (buildPoolConfig env cmd).MaxInvokerCount = 8) ∧
    ((env.MAX_WAIT_MILLIS = "" ∨ goAtoi env.MAX_WAIT_MILLIS = none) →
      (buildPoolConfig env cmd).MaxWaitDuration = 500 * Millisecond) ∧
    ((env.MAX_EXEC_MILLIS = "" ∨ goAtoi env.MAX_EXEC_MILLIS = none) →
      (buildPoolConfig env cmd).MaxRunnableTime = 30000 * Millisecond) ∧
    (goAtoi env.MAX_FUNCTION_COUNT = none →
      getInvoker env w = getInvoker { env with MAX_FUNCTION_COUNT := "" } w) ∧
    (goAtoi env.MAX_WAIT_MILLIS = none →
      getInvoker env w = getInvoker { env with MAX_WAIT_MILLIS := "" } w) ∧
    (goAtoi env.MAX_EXEC_MILLIS = none →
      getInvoker env w = getInvoker { env with MAX_EXEC_MILLIS := "" } w) ∧
    (∀ i, env.MAX_FUNCTION_COUNT ≠ "" → goAtoi env.MAX_FUNCTION_COUNT = some i →
      (buildPoolConfig env cmd).MaxInvokerCount = i) ∧
    (∀ i, env.MAX_WAIT_MILLIS ≠ "" → goAtoi env.MAX_WAIT_MILLIS = some i →
      (buildPoolConfig env cmd).MaxWaitDuration = int64wrap (i * Millisecond)) ∧
    (∀ i, env.MAX_EXEC_MILLIS ≠ "" → goAtoi env.MAX_EXEC_MILLIS = some i →
      (buildPoolConfig env cmd).MaxRunnableTime = int64wrap (i * Millisecond)) ∧
    (∀ env' : Env, env'.MAX_FUNCTION_COUNT = env.MAX_FUNCTION_COUNT →
      (buildPoolConfig env' cmd).MaxInvokerCount
        = (buildPoolConfig env cmd).MaxInvokerCount) ∧
    (∀ env' : Env, env'.MAX_WAIT_MILLIS = env.MAX_WAIT_MILLIS →
      (buildPoolConfig env' cmd).MaxWaitDuration
        = (buildPoolConfig env cmd).MaxWaitDuration) ∧
    (∀ env' : Env, env'.MAX_EXEC_MILLIS = env.MAX_EXEC_MILLIS →
      (buildPoolConfig env' cmd).MaxRunnableTime
        = (buildPoolConfig env cmd).MaxRunnableTime) :=
  ⟨bpc_count_default env cmd, bpc_wait_default env cmd, bpc_exec_default env cmd,
   fun h => getInvoker_ext env _ w rfl (fun c => bpc_count_unset env c h),
   fun h => getInvoker_ext env _ w rfl (fun c => bpc_wait_unset env c h),
   fun h => getInvoker_ext env _ w rfl (fun c => bpc_exec_unset env c h),
   fun i hne h => bpc_count_override env cmd i hne h,
   fun i hne h => bpc_wait_override env cmd i hne h,
   fun i hne h => bpc_exec_override env cmd i hne h,
   fun env' h => bpc_count_congr env env' cmd h,
   fun env' h => bpc_wait_congr env env' cmd h,
   fun env' h => bpc_exec_congr env env' cmd h⟩

/-- Witness for C5 at concrete inputs: unparseable overrides keep every
default and getInvoker is unaffected; a parseable override ("0" for the
count in envZero) lands in the configuration. -/
theorem C5_policy_defaults_and_independence_witness :
    (buildPoolConfig envBad cmd0).MaxInvokerCount = 8 ∧
    (buildPoolConfig envBad cmd0).MaxWaitDuration = 500 * Millisecond ∧
    (buildPoolConfig envBad cmd0).MaxRunnableTime = 30000 * Millisecond ∧
    getInvoker envBad wTriv = getInvoker { envBad with MAX_FUNCTION_COUNT := "" } wTriv ∧
    (buildPoolConfig envZero cmd0).MaxInvokerCount = 0 :=
  ⟨(C5_policy_defaults_and_independence envBad wTriv cmd0).1 (Or.inr (by decide)),
   (C5_policy_defaults_and_independence envBad wTriv cmd0).2.1 (Or.inr (by decide)),
   (C5_policy_defaults_and_independence envBad wTriv cmd0).2.2.1 (Or.inr (by decide)),
   (C5_policy_defaults_and_independence envBad wTriv cmd0).2.2.2.1 (by decide),
   (C5_policy_defaults_and_independence envZero wTriv cmd0).2.2.2.2.2.2.1 0
     (by decide) (by decide)⟩

/-- C6: sink resolution is asymmetric in its two variables: an unset
SINK_PLUGIN_PATH skips sink resolution with no sink and no error, while a
set path with an unset SINK_PLUGIN_SYMBOL makes setup fail (with the
dedicated configuration error whenever the plugin itself loads), before the
event source is ever invoked. -/
theorem C6_sink_resolution_asymmetry (env : Env) (w : World) :
    (env.SINK_PLUGIN_PATH = "" → getEventSink env w = .ok none) ∧
    (env.SINK_PLUGIN_PATH ≠ "" → env.SINK_PLUGIN_SYMBOL = "" →
      (∃ e, getEventSink env w = .error e) ∧
      (∀ p, w.openPlugin env.SINK_PLUGIN_PATH = .ok p →
        getEventSink env w =
          .error "SINK_PLUGIN_SYMBOL is required when a SINK_PLUGIN_PATH is provided") ∧
      (runTr env w).2 = []) := by
  constructor
  · intro h
    unfold getEventSink
    simp [h]
  · intro hp hs
    have hsink : ∃ e, getEventSink env w = .error e := by
      unfold getEventSink
      simp only [hp, if_neg]
      cases ho : w.openPlugin env.SINK_PLUGIN_PATH with
      | error e => exact ⟨e, rfl⟩
      | ok p =>
        refine ⟨"SINK_PLUGIN_SYMBOL is required when a SINK_PLUGIN_PATH is provided", ?_⟩
        simp [hs]
    refine ⟨hsink, ?_, ?_⟩
    · intro p hop
      unfold getEventSink
      simp [hp, hop, hs]
    · unfold runTr
      cases h1 : getInvoker env w with
      | error e => rfl
      | ok inv =>
        cases h2 : getEventSource env w with
        | error e => rfl
        | ok src =>
          rcases hsink with ⟨e, he⟩
          rw [he]

/-- Witness for C6 at concrete inputs. -/
theorem C6_sink_resolution_asymmetry_witness :
    getEventSink envSinkNoSym wOk =
      .error "SINK_PLUGIN_SYMBOL is required when a SINK_PLUGIN_PATH is provided" ∧
    (runTr envSinkNoSym wOk).2 = [] ∧
    getEventSink envZero wOk = .ok none :=
  ⟨((C6_sink_resolution_asymmetry envSinkNoSym wOk).2 (by decide) rfl).2.1
      pluginBoth rfl,
   ((C6_sink_resolution_asymmetry envSinkNoSym wOk).2 (by decide) rfl).2.2,
   (C6_sink_resolution_asymmetry envZero wOk).1 rfl⟩

/-- C7: run performs setup in the strict order pool, then source, then sink;
the first failing step's error is returned as run's result and the event
source is never invoked (the source-invocation trace is empty).  In
particular a plugin loader failure on the source path — e.g. a non-existent
module — surfaces as the source-resolution error. -/
theorem C7_setup_order_and_first_failure (env : Env) (w : World) :
    (∀ e, getInvoker env w = .error e →
      run env w = some e ∧ (runTr env w).2 = []) ∧
    (∀ inv e, getInvoker env w = .ok inv → getEventSource env w = .error e →
      run env w = some e ∧ (runTr env w).2 = []) ∧
    (∀ inv src e, getInvoker env w = .ok inv → getEventSource env w = .ok src →
      getEventSink env w = .error e →
      run env w = some e ∧ (runTr env w).2 = []) ∧
    (∀ e, env.SOURCE_PLUGIN_PATH ≠ "" →
      w.openPlugin env.SOURCE_PLUGIN_PATH = .error e →
      getEventSource env w = .error e) := by
  refine ⟨?_, ?_, ?_, ?_⟩
  · intro e h
    unfold run runTr
    simp [h]
  · intro inv e h1 h2
    unfold run runTr
    simp [h1, h2]
  · intro inv src e h1 h2 h3
    unfold run runTr
    simp [h1, h2, h3]
  · intro e hp ho
    unfold getEventSource
    simp [hp, ho]

/-- Witness for C7 at concrete inputs: a failing command parse, and a
non-existent source module. -/
theorem C7_setup_order_and_first_failure_witness :
    (run envOk wBadCmd = some "invalid command" ∧ (runTr envOk wBadCmd).2 = []) ∧
    getEventSource envOk wNoFile = .error "no such file" ∧
    (run envOk wNoFile = some "no such file" ∧ (runTr envOk wNoFile).2 = []) :=
  ⟨(C7_setup_order_and_first_failure envOk wBadCmd).1 "invalid command" rfl,
   (C7_setup_order_and_first_failure envOk wNoFile).2.2.2 "no such file"
     (by decide) rfl,
   (C7_setup_order_and_first_failure envOk wNoFile).2.1 inv0 "no such file"
     rfl rfl⟩

/-- C8: a resolved symbol that exists in its module but is not of the exact
expected function shape makes resolution fail with a hard error, for both
the event source and the event sink; and resolution only ever succeeds by
an exact cast: a successfully resolved capability is precisely the function
stored under the symbol, at the expected shape. -/
theorem C8_exact_shape_check (env : Env) (w : World) :
    (∀ p sym, env.SOURCE_PLUGIN_PATH ≠ "" → env.SOURCE_PLUGIN_SYMBOL ≠ "" →
      w.openPlugin env.SOURCE_PLUGIN_PATH = .ok p →
      p env.SOURCE_PLUGIN_SYMBOL = .ok sym →
      (∀ f, sym ≠ .sourceFn f) →
      getEventSource env w = .error
        ("Symbol " ++ env.SOURCE_PLUGIN_SYMBOL ++ " could not be found in "
          ++ env.SOURCE_PLUGIN_PATH)) ∧
    (∀ f, getEventSource env w = .ok f →
      ∃ p, w.openPlugin env.SOURCE_PLUGIN_PATH = .ok p ∧
        p env.SOURCE_PLUGIN_SYMBOL = .ok (.sourceFn f)) ∧
    (∀ p sym, env.SINK_PLUGIN_PATH ≠ "" → env.SINK_PLUGIN_SYMBOL ≠ "" →
      w.openPlugin env.SINK_PLUGIN_PATH = .ok p →
      p env.SINK_PLUGIN_SYMBOL = .ok sym →
      (∀ f, sym ≠ .sinkFn f) →
      getEventSink env w = .error
        ("Symbol " ++ env.SINK_PLUGIN_SYMBOL ++ " could not be found in "
          ++ env.SINK_PLUGIN_PATH)) ∧
    (∀ f, getEventSink env w = .ok (some f) →
      ∃ p, w.openPlugin env.SINK_PLUGIN_PATH = .ok p ∧
        p env.SINK_PLUGIN_SYMBOL = .ok (.sinkFn f)) := by
  refine ⟨?_, ?_, ?_, ?_⟩
  · intro p sym hp hs hop hlook hshape
    unfold getEventSource
    simp only [hp, if_neg, hop, hs, hlook]
    cases sym with
    | sourceFn f => exact absurd rfl (hshape f)
    | sinkFn f => simp [hp, hs]
    | otherSym => simp [hp, hs]
  · intro f hok
    unfold getEventSource at hok
    by_cases hp : env.SOURCE_PLUGIN_PATH = ""
    · simp [hp] at hok
    · simp only [hp, if_neg] at hok
      cases ho : w.openPlugin env.SOURCE_PLUGIN_PATH with
      | error e => simp [ho, hp] at hok
      | ok p =>
        refine ⟨p, rfl, ?_⟩
        simp only [ho, hp] at hok
        by_cases hs : env.SOURCE_PLUGIN_SYMBOL = ""
        · simp [hs] at hok
        · simp only [hs, if_neg] at hok
          cases hl : p env.SOURCE_PLUGIN_SYMBOL with
          | error e => simp [hl, hs] at hok
          | ok sym =>
            simp only [hl, hs] at hok
            cases sym with
            | sourceFn g =>
              simp at hok
              rw [← hok]
            | sinkFn g => simp [hs] at hok
            | otherSym => simp [hs] at hok
  · intro p sym hp hs hop hlook hshape
    unfold getEventSink
    simp only [hp, if_neg, hop, hs, hlook]
    cases sym with
    | sinkFn f => exact absurd rfl (hshape f)
    | sourceFn f => simp [hp, hs]
    | otherSym => simp [hp, hs]
  · intro f hok
    unfold getEventSink at hok
    by_cases hp : env.SINK_PLUGIN_PATH = ""
    · simp [hp] at hok
    · simp only [hp, if_neg] at hok
      cases ho : w.openPlugin env.SINK_PLUGIN_PATH with
      | error e => simp [ho, hp] at hok
      | ok p =>
        refine ⟨p, rfl, ?_⟩
        simp only [ho, hp] at hok
        by_cases hs : env.SINK_PLUGIN_SYMBOL = ""
        · simp [hs] at hok
        · simp only [hs, if_neg] at hok
          cases hl : p env.SINK_PLUGIN_SYMBOL with
          | error e => simp [hl, hs] at hok
          | ok sym =>
            simp only [hl, hs] at hok
            cases sym with
            | sinkFn g =>
              simp at hok
              rw [← hok]
            | sourceFn g => simp [hs] at hok
            | otherSym => simp [hs] at hok

/-- Witness for C8 at concrete inputs: a sink-shaped symbol resolved as a
source fails hard (and vice versa), while the exact shapes resolve to the
stored functions. -/
theorem C8_exact_shape_check_witness :
    getEventSource envWrongSrc wOk =
      .error ("Symbol " ++ "Sink" ++ " could not be found in " ++ "./src.so") ∧
    getEventSink envWrongSink wOk =
      .error ("Symbol " ++ "Source" ++ " could not be found in " ++ "./sink.so") ∧
    (∃ p, wOk.openPlugin envOk.SOURCE_PLUGIN_PATH = .ok p ∧
      p envOk.SOURCE_PLUGIN_SYMBOL = .ok (.sourceFn src0)) ∧
    (∃ p, wOk.openPlugin envOk.SINK_PLUGIN_PATH = .ok p ∧
      p envOk.SINK_PLUGIN_SYMBOL = .ok (.sinkFn snk0)) :=
  ⟨(C8_exact_shape_check envWrongSrc wOk).1 pluginBoth (.sinkFn snk0)
      (by decide) (by decide) rfl rfl
      (fun f h => SymVal.noConfusion h),
   (C8_exact_shape_check envWrongSink wOk).2.2.1 pluginBoth (.sourceFn src0)
      (by decide) (by decide) rfl rfl
      (fun f h => SymVal.noConfusion h),
   (C8_exact_shape_check envOk wOk).2.1 src0 rfl,
   (C8_exact_shape_check envOk wOk).2.2.2 snk0 rfl⟩

/-- C9: `sinkInvoker.Invoke` passes the context it received, and nothing
else, to both the inner invoker and the sink — every call recorded in its
instrumented trace carries exactly the incoming context (and the incoming
input) — and when setup succeeds, run invokes the event source exactly once,
with `context.Background()` as the context and the sinkInvoker wrapping the
pool and the resolved sink as the invoker; that root context carries no
deadline and is not cancelled. -/
theorem C9_context_propagation :
    (∀ (si : sinkInvoker) (ctx : Ctx) (input : Input),
      (∀ pr ∈ (si.InvokeTr ctx input).2.1, pr.1 = ctx ∧ pr.2 = input) ∧
      (∀ pr ∈ (si.InvokeTr ctx input).2.2, pr.1 = ctx)) ∧
    (∀ (env : Env) (w : World) (inv : Invoker) (src : eventSource)
        (snk : Option eventSink),
      getInvoker env w = .ok inv → getEventSource env w = .ok src →
      getEventSink env w = .ok snk →
      (runTr env w).2 = [Ctx.background] ∧
      run env w = src Ctx.background (sinkInvoker.Invoke ⟨inv, snk⟩)) ∧
    Ctx.background.deadline = none ∧
    Ctx.background.isCancelled = false := by
  refine ⟨?_, ?_, rfl, rfl⟩
  · intro si ctx input
    unfold sinkInvoker.InvokeTr
    rcases si.invoker ctx input with ⟨result, err⟩
    cases err with
    | none =>
      rcases si.sink with _ | sink
      · simp
      · cases h : sink ctx result <;> simp [h]
    | some e => simp
  · intro env w inv src snk h1 h2 h3
    unfold run runTr
    simp [h1, h2, h3]

/-- Witness for C9 at concrete inputs: with everything resolving, the source
is invoked exactly once, on the background context. -/
theorem C9_context_propagation_witness :
    (runTr envOk wOk).2 = [Ctx.background] ∧
    run envOk wOk = src0 Ctx.background (sinkInvoker.Invoke ⟨inv0, some snk0⟩) :=
  C9_context_propagation.2.1 envOk wOk inv0 src0 (some snk0) rfl rfl rfl

/-- C10: a configuration variable set to the empty string behaves exactly
like an absent one (Go's os.Getenv returns "" in both cases, so the two are
one and the same value here): an empty SINK_PLUGIN_PATH means no sink and no
error, an empty SOURCE_PLUGIN_PATH or SOURCE_PLUGIN_SYMBOL is the
missing-required-variable error, and an empty numeric policy variable leaves
the default in place. -/
theorem C10_empty_equals_absent (env : Env) (w : World) (cmd : Cmd) :
    (env.SINK_PLUGIN_PATH = "" → getEventSink env w = .ok none) ∧
    (env.SOURCE_PLUGIN_PATH = "" →
      getEventSource env w =
        .error "SOURCE_PLUGIN_PATH is a required environment variable") ∧
    (∀ p, env.SOURCE_PLUGIN_PATH ≠ "" →
      w.openPlugin env.SOURCE_PLUGIN_PATH = .ok p →
      env.SOURCE_PLUGIN_SYMBOL = "" →
      getEventSource env w =
        .error "SOURCE_PLUGIN_SYMBOL is a required environment variable") ∧
    (env.MAX_FUNCTION_COUNT = "" →
      (buildPoolConfig env cmd).MaxInvokerCount = 8) ∧
    (env.MAX_WAIT_MILLIS = "" →
      (buildPoolConfig env cmd).MaxWaitDuration = 500 * Millisecond) ∧
    (env.MAX_EXEC_MILLIS = "" →
      (buildPoolConfig env cmd).MaxRunnableTime = 30000 * Millisecond) := by
  refine ⟨?_, ?_, ?_, fun h => bpc_count_default env cmd (Or.inl h),
    fun h => bpc_wait_default env cmd (Or.inl h),
    fun h => bpc_exec_default env cmd (Or.inl h)⟩
  · intro h
    unfold getEventSink
    simp [h]
  · intro h
    unfold getEventSource
    simp [h]
  · intro p hp hop hs
    unfold getEventSource
    simp [hp, hop, hs]

/-- Witness for C10 at concrete inputs. -/
theorem C10_empty_equals_absent_witness :
    getEventSink envZero wTriv = .ok none ∧
    getEventSource envEmpty wTriv =
      .error "SOURCE_PLUGIN_PATH is a required environment variable" ∧
    getEventSource envNoSym wOk =
      .error "SOURCE_PLUGIN_SYMBOL is a required environment variable" ∧
    (buildPoolConfig envEmpty cmd0).MaxInvokerCount = 8 ∧
    (buildPoolConfig envEmpty cmd0).MaxWaitDuration = 500 * Millisecond ∧
    (buildPoolConfig envEmpty cmd0).MaxRunnableTime = 30000 * Millisecond :=
  ⟨(C10_empty_equals_absent envZero wTriv cmd0).1 rfl,
   (C10_empty_equals_absent envEmpty wTriv cmd0).2.1 rfl,
   (C10_empty_equals_absent envNoSym wOk cmd0).2.2.1 pluginBoth (by decide)
     rfl rfl,
   (C10_empty_equals_absent envEmpty wTriv cmd0).2.2.2.1 rfl,
   (C10_empty_equals_absent envEmpty wTriv cmd0).2.2.2.2.1 rfl,
   (C10_empty_equals_absent envEmpty wTriv cmd0).2.2.2.2.2 rfl⟩
